import Mathlib

/-!
Verification development for the client-side SSE streaming chat handler of
`src/client/src/components/chat/MessageItem.tsx` (the `ProjectChatPage`
component and its `handleSendMessage` function).

The embedding is shallow: JavaScript strings are modelled as `String` /
`List Char`, the incremental SSE frame decoder (lines 198-209) as a fold
over chunks that splits an accumulated buffer on the `"\n\n"` separator,
the per-block line scan (lines 214-226) and event dispatch (lines 228-257)
as pure functions on the client state, and the whole of `handleSendMessage`
(lines 136-285) as a state transformer parameterised by the transport
outcome.  `JSON.parse` is a host primitive, not repository code; it is
modelled as an oracle argument `parse : List Char -> Option ParsedData`
returning `none` exactly when the payload is not valid JSON.
-/

namespace StreamChat

/-! ## Data model

`Message` follows the interface at lines 4-15 of the source (the optional
`citations` field becomes `Option (List Citation)`).  `Role` is the
`"user" | "assistant"` union. -/

inductive Role where
  | user
  | assistant
deriving DecidableEq

structure Citation where
  filename : String
  page : Nat
deriving DecidableEq

structure Message where
  id : String
  content : String
  role : Role
  created_at : String
  chat_id : String
  clerk_id : String
  citations : Option (List Citation)
deriving DecidableEq

/-- Modelled from the spec: the `ChatWithMessages` type is imported from
`@/types`, which is not part of the sources; the spec describes it as
`{id, ...metadata, messages: ordered sequence of Message}`.  Only the two
fields the streaming logic touches are modelled. -/
structure ChatWithMessages where
  id : String
  messages : List Message
deriving DecidableEq

/-- The result of `JSON.parse` on a `data:` payload, restricted to the
fields the dispatch at lines 231-254 reads.  A `none` field models a JS
`undefined` property (the field is absent from the decoded object). -/
structure ParsedData where
  content : Option String
  status : Option String
  message : Option String
  userMessage : Option Message
  aiMessage : Option Message
deriving DecidableEq

/-- The React state owned by `ProjectChatPage` that `handleSendMessage`
reads and writes (lines 108-129), plus two observability channels:
`toasts` records `toast.error` calls (line 268) and `warnings` records
`console.warn` calls (line 256).  `agentStatus` is `Option String` because
the JS value can be set to `undefined` by a `status` event whose payload
lacks the field; the initial React value `""` is `some ""`.
`hasAbortController` is whether `abortControllerRef.current` is non-null. -/
structure ClientState where
  currentChatData : Option ChatWithMessages
  sendMessageError : Option String
  isMessageSending : Bool
  isStreaming : Bool
  streamingMessage : String
  agentStatus : Option String
  hasAbortController : Bool
  toasts : List String
  warnings : List String
deriving DecidableEq

/-! ## Frame Decoder (lines 198-209)

`buffer += chunk; const events = buffer.split("\n\n"); buffer =
events.pop() || "";` — the buffer is split on the double-newline block
separator, all fully separated leading pieces are emitted, and the final
piece is retained.  `splitBlocks` is JavaScript's
`String.prototype.split("\n\n")` (greedy, left-to-right, non-overlapping)
on a character list. -/

/-- Prepend a character to the first piece of a split result (the split of
`c :: rest` when no separator starts at `c`). -/
def consHead (c : Char) : List (List Char) → List (List Char)
  | [] => [[c]]
  | b :: bs => (c :: b) :: bs

/-- JavaScript `s.split("\n\n")` on a character list: greedy left-to-right
scan for the two-character separator. -/
def splitBlocks : List Char → List (List Char)
  | [] => [[]]
  | [c] => [[c]]
  | c1 :: c2 :: rest =>
    if c1 = '\n' ∧ c2 = '\n' then [] :: splitBlocks rest
    else consHead c1 (splitBlocks (c2 :: rest))

/-- One iteration of the read loop's buffer handling (lines 204-209): the
accumulated emitted blocks are extended with all fully separated pieces of
`buffer ++ chunk`, and the last piece becomes the new buffer
(`events.pop() || ""`). -/
def feedChunk (acc : List (List Char) × List Char) (chunk : String) :
    List (List Char) × List Char :=
  let pieces := splitBlocks (acc.2 ++ chunk.data)
  (acc.1 ++ pieces.dropLast, pieces.getLastD [])

/-- The Frame Decoder run over a whole sequence of text chunks, starting
from the empty buffer of line 198. -/
def runDecoder (chunks : List String) : List (List Char) × List Char :=
  chunks.foldl feedChunk ([], [])

/-! ## Event Parser (lines 211-226)

Each emitted block is split on single newlines; the loop at lines 218-224
scans the lines in order, assigning `eventType = line.slice(7).trim()`
whenever a line starts with `"event: "` and `dataStr = line.slice(6)`
whenever a line starts with `"data: "`.  Each assignment overwrites the
previous one. -/

/-- JavaScript `block.split("\n")` on a character list. -/
def splitOnNl : List Char → List (List Char)
  | [] => [[]]
  | c :: rest =>
    if c = '\n' then [] :: splitOnNl rest
    else consHead c (splitOnNl rest)

/-- JavaScript `String.prototype.trim` on a character list (whitespace
stripped from both ends). -/
def trimChars (cs : List Char) : List Char :=
  ((cs.dropWhile Char.isWhitespace).reverse.dropWhile Char.isWhitespace).reverse

/-- JavaScript `s.startsWith(p)`. -/
def strStartsWith (s p : String) : Bool :=
  p.data.isPrefixOf s.data

/-- The body of the `for (const line of lines)` loop at lines 218-224,
acting on the `(eventType, dataStr)` accumulator. -/
def scanEventDataLine (acc : List Char × List Char) (line : List Char) :
    List Char × List Char :=
  if ("event: ".data).isPrefixOf line then (trimChars (line.drop 7), acc.2)
  else if ("data: ".data).isPrefixOf line then (acc.1, line.drop 6)
  else acc

/-- The whole line scan: fold `scanEventDataLine` over the block's lines,
starting from `eventType = ""`, `dataStr = ""` (lines 215-216). -/
def parseBlockLines (lines : List (List Char)) : List Char × List Char :=
  lines.foldl scanEventDataLine ([], [])

/-- Modelled from the spec: the first-match policy the spec asserts —
"Only the first matching event-type line and first matching data line in a
block are honored".  Used only to compare against `parseBlockLines`. -/
def firstMatchPolicy (lines : List (List Char)) : List Char × List Char :=
  (((lines.find? fun l => ("event: ".data).isPrefixOf l).map
      fun l => trimChars (l.drop 7)).getD [],
   ((lines.find? fun l => ("data: ".data).isPrefixOf l).map
      fun l => l.drop 6).getD [])

/-- The last-match policy that the code actually implements: the last line
starting with `"event: "` and the last line starting with `"data: "` win
(scanning the reversed line list with `find?` yields the last match). -/
def lastMatchPolicy (lines : List (List Char)) : List Char × List Char :=
  (((lines.reverse.find? fun l => ("event: ".data).isPrefixOf l).map
      fun l => trimChars (l.drop 7)).getD [],
   ((lines.reverse.find? fun l => ("data: ".data).isPrefixOf l).map
      fun l => l.drop 6).getD [])

/-! ## Conversation Reconciler (lines 163-170, 238-253, 270-277) -/

/-- Line 168: `messages: [...prev.messages, optimisticUserMessage]`. -/
def appendOptimistic (msgs : List Message) (m : Message) : List Message :=
  msgs ++ [m]

/-- Lines 243-249: on a `done` event carrying both persisted messages, the
optimistic message is filtered out by id and the pair is appended. -/
def finalize (optimisticId : String) (u a : Message) (msgs : List Message) :
    List Message :=
  msgs.filter (fun m => m.id != optimisticId) ++ [u, a]

/-- Line 275: the error-path rollback,
`prev.messages.filter((msg) => !msg.id.startsWith("temp-"))`. -/
def rollback (msgs : List Message) : List Message :=
  msgs.filter fun msg => !(strStartsWith msg.id "temp-")

/-! ## Event dispatch (lines 228-257)

The `try { const data = JSON.parse(dataStr); ... } catch (e) {
console.warn(...) }` body.  Note that the `throw new Error(data.message)`
of the `error` branch (line 236) is lexically inside this same `try`, so
it is caught by the `catch` at line 255 and surfaces only as a
`console.warn` — it does not abort the loop. -/

/-- The `catch` at lines 255-257: `console.warn("Failed to parse SSE
message", e)`. -/
def warnState (s : ClientState) : ClientState :=
  { s with warnings := s.warnings ++ ["Failed to parse SSE message"] }

/-- Dispatch of a decoded event (lines 231-254) given the already parsed
payload.  `token` appends to the streaming text (JS coerces an absent
`content` to the string `"undefined"`), `status` republishes the status,
`error` throws — which the enclosing catch immediately swallows into a
warning — and `done` finalizes the conversation when both messages are
present. -/
def applyEvent (optimisticId : String) (s : ClientState)
    (eventType : List Char) (data : ParsedData) : ClientState :=
  if eventType = "token".data then
    { s with streamingMessage := s.streamingMessage ++ data.content.getD "undefined" }
  else if eventType = "status".data then
    { s with agentStatus := data.status }
  else if eventType = "error".data then
    warnState s
  else if eventType = "done".data then
    match s.currentChatData with
    | none => s
    | some chat =>
      match data.aiMessage, data.userMessage with
      | some a, some u =>
        let chat2 := { chat with messages := finalize optimisticId u a chat.messages }
        { s with currentChatData := some chat2 }
      | _, _ => s
  else s

/-- Lines 226-257 for one extracted `(eventType, dataStr)` pair: skip if
either is empty (line 226), otherwise `JSON.parse` the payload — a decode
failure is swallowed into a warning — and dispatch. -/
def dispatchEvent (parse : List Char → Option ParsedData) (optimisticId : String)
    (s : ClientState) (p : List Char × List Char) : ClientState :=
  if p.1 = [] ∨ p.2 = [] then s
  else
    match parse p.2 with
    | none => warnState s
    | some data => applyEvent optimisticId s p.1 data

/-- Lines 211-257 for one block: skip blocks that are blank after trimming
(line 212), otherwise run the line scan and dispatch. -/
def processBlock (parse : List Char → Option ParsedData) (optimisticId : String)
    (s : ClientState) (block : List Char) : ClientState :=
  if trimChars block = [] then s
  else dispatchEvent parse optimisticId s (parseBlockLines (splitOnNl block))

/-! ## Stream Session (lines 136-285) -/

/-- How the read loop over a successful response body ends: the reader
reports `done` (line 202), the pending read rejects with an `AbortError`
(the abort signal of line 184 fired), or it rejects with some other
transport error. -/
inductive StreamEnd where
  | normal
  | abortError
  | otherError (msg : String)

/-- The observable outcome of the `fetch` at lines 175-186: a non-success
HTTP status (line 188), a success response with no readable body
(line 192), or a readable stream delivering a list of text chunks and then
ending. -/
inductive FetchResponse where
  | httpError (status : Nat)
  | noBody
  | stream (chunks : List String) (ending : StreamEnd)

/-- The optimistic user message created at lines 153-161:
`id: temp-<Date.now()>`, the typed content, and the current chat/user. -/
def mkOptimistic (ts : Nat) (chatId content uid nowIso : String) : Message :=
  { id := "temp-" ++ toString ts
    content := content
    role := .user
    created_at := nowIso
    chat_id := chatId
    clerk_id := uid
    citations := some [] }

/-- Lines 143-170: clear the error, raise the sending/streaming flags,
reset the live text and status, install a fresh abort controller, and
append the optimistic message. -/
def initStreamState (s : ClientState) (chat : ChatWithMessages) (opt : Message) :
    ClientState :=
  let chat2 := { chat with messages := appendOptimistic chat.messages opt }
  { s with
    sendMessageError := none
    isMessageSending := true
    isStreaming := true
    streamingMessage := ""
    agentStatus := some ""
    hasAbortController := true
    currentChatData := some chat2 }

/-- One iteration of the `while (true)` read loop (lines 200-259) on the
`(state, buffer)` pair: decode the chunk into blocks and process each
emitted block in order. -/
def streamStep (parse : List Char → Option ParsedData) (optimisticId : String)
    (acc : ClientState × List Char) (chunk : String) : ClientState × List Char :=
  let pieces := splitBlocks (acc.2 ++ chunk.data)
  (pieces.dropLast.foldl (processBlock parse optimisticId) acc.1,
   pieces.getLastD [])

/-- The whole read loop, starting from the empty buffer of line 198.  The
residual buffer is dropped when the loop exits (partial trailing frames
are never processed). -/
def runStreamLoop (parse : List Char → Option ParsedData) (optimisticId : String)
    (s : ClientState) (chunks : List String) : ClientState :=
  (chunks.foldl (streamStep parse optimisticId) (s, [])).1

/-- The `try` body from the `fetch` onwards (lines 175-259), returning the
state reached together with `some (message, isAbort)` when an exception
escapes the body and `none` when it completes normally.  A non-success
status throws `HTTP error! status: <n>` (line 189); a missing body throws
`No response body` (line 193); an abort surfaces as an exception whose
name is `AbortError`. -/
def runTry (parse : List Char → Option ParsedData) (resp : FetchResponse)
    (s1 : ClientState) (optimisticId : String) :
    ClientState × Option (String × Bool) :=
  match resp with
  | .httpError status => (s1, some ("HTTP error! status: " ++ toString status, false))
  | .noBody => (s1, some ("No response body", false))
  | .stream chunks ending =>
    let s2 := runStreamLoop parse optimisticId s1 chunks
    match ending with
    | .normal => (s2, none)
    | .abortError => (s2, some ("", true))
    | .otherError msg => (s2, some (msg, false))

/-- The `catch` at lines 260-277: an `AbortError` returns silently
(lines 261-263); any other exception sets the error state, raises a toast
and rolls back every `temp-`-prefixed message (lines 265-277). -/
def applyCatch (st : ClientState) (outcome : Option (String × Bool)) : ClientState :=
  match outcome with
  | none => st
  | some (_, true) => st
  | some (msg, false) =>
    let st1 := { st with
      sendMessageError := some msg
      toasts := st.toasts ++ [msg] }
    match st1.currentChatData with
    | none => st1
    | some chat =>
      let chat2 := { chat with messages := rollback chat.messages }
      { st1 with currentChatData := some chat2 }

/-- The `finally` at lines 278-284: release all session resources. -/
def applyFinally (st : ClientState) : ClientState :=
  { st with
    isMessageSending := false
    isStreaming := false
    streamingMessage := ""
    agentStatus := some ""
    hasAbortController := false }

/-- `handleSendMessage` after the precondition check, for a present chat
and user: build the optimistic message, initialise the streaming state,
run the try body, the catch and the finally. -/
def sendCore (uid content : String) (ts : Nat) (nowIso : String)
    (parse : List Char → Option ParsedData) (resp : FetchResponse)
    (s : ClientState) (chat : ChatWithMessages) : ClientState :=
  let opt := mkOptimistic ts chat.id content uid nowIso
  let t := runTry parse resp (initStreamState s chat opt) opt.id
  applyFinally (applyCatch t.1 t.2)

/-- The whole of `handleSendMessage` (lines 136-285).  The guard at
lines 137-140 fails fast with `Chat or user not found` when the chat data
or the user id is missing, touching nothing else and issuing no request. -/
def handleSendMessage (userId : Option String) (content : String) (ts : Nat)
    (nowIso : String) (parse : List Char → Option ParsedData)
    (resp : FetchResponse) (s : ClientState) : ClientState :=
  match s.currentChatData, userId with
  | some chat, some uid => sendCore uid content ts nowIso parse resp s chat
  | _, _ => { s with sendMessageError := some "Chat or user not found" }

/-! ## Concrete fixtures

Closed inputs used by witnesses and counterexamples: a pre-existing
conversation (including a stale `temp-`-prefixed message, to exercise the
prefix-based rollback), persisted server messages, and `JSON.parse`
oracles for the scenarios. -/

def cxOld : Message :=
  { id := "m0", content := "old", role := .assistant, created_at := "t0"
    chat_id := "c1", clerk_id := "u0", citations := none }

def cxStale : Message :=
  { id := "temp-1", content := "stale", role := .user, created_at := "t1"
    chat_id := "c1", clerk_id := "u0", citations := some [] }

def cxUser : Message :=
  { id := "u1", content := "Hello", role := .user, created_at := "t2"
    chat_id := "c1", clerk_id := "u0", citations := none }

def cxAi : Message :=
  { id := "a1", content := "Hi there", role := .assistant, created_at := "t3"
    chat_id := "c1", clerk_id := "u0", citations := some [] }

def demoChat : ChatWithMessages :=
  { id := "c1", messages := [cxOld, cxStale] }

def demoState : ClientState :=
  { currentChatData := some demoChat
    sendMessageError := none
    isMessageSending := false
    isStreaming := false
    streamingMessage := ""
    agentStatus := some ""
    hasAbortController := false
    toasts := []
    warnings := [] }

def noChatState : ClientState :=
  { demoState with currentChatData := none }

/-- The `error` event payload of the paragraph-8 scenario,
`{"message":"rate limited"}` (braces written as hex escapes). -/
def rateLimitedPayload : String :=
  "\x7b\"message\":\"rate limited\"\x7d"

/-- A `JSON.parse` oracle defined exactly on the rate-limited payload. -/
def rateLimitedParse : List Char → Option ParsedData :=
  fun ds =>
    if ds = rateLimitedPayload.data then
      some { content := none, status := none, message := some "rate limited"
             userMessage := none, aiMessage := none }
    else none

/-- A `JSON.parse` oracle that fails on every payload (all-invalid JSON). -/
def alwaysInvalidParse : List Char → Option ParsedData :=
  fun _ => none

/-- A decoded object carrying none of the recognised fields. -/
def emptyData : ParsedData :=
  { content := none, status := none, message := none
    userMessage := none, aiMessage := none }

/-- A `JSON.parse` oracle returning an object carrying none of the
recognised fields. -/
def emptyFieldsParse : List Char → Option ParsedData :=
  fun _ => some emptyData

/-- The single chunk of the paragraph-8 error scenario. -/
def rateLimitedChunk : String :=
  "event: error\ndata: " ++ rateLimitedPayload ++ "\n\n"

/-- The resulting state of the paragraph-8 error scenario run against the
code: a successful response streams the `error` event and then ends. -/
def rateLimitedRun : ClientState :=
  handleSendMessage (some "user1") "Hello" 5 "now" rateLimitedParse
    (.stream [rateLimitedChunk] .normal) demoState

/-- The lines of a block holding two `event: ` lines and one `data: `
line, used to separate the first-match policy from the implementation. -/
def duplicateEventLines : List (List Char) :=
  (splitOnNl "event: token\nevent: status\ndata: 1".data)

/-! ## Helper lemmas about the block splitter -/

theorem consHead_ne_nil (c : Char) (L : List (List Char)) : consHead c L ≠ [] := by
  cases L <;> simp [consHead]

theorem splitBlocks_ne_nil (s : List Char) : splitBlocks s ≠ [] := by
  induction s using splitBlocks.induct with
  | case1 => simp [splitBlocks]
  | case2 c => simp [splitBlocks]
  | case3 c1 c2 rest h ih => simp [splitBlocks, h]
  | case4 c1 c2 rest h ih => simp [splitBlocks, h, consHead_ne_nil]

theorem getLastD_of_ne_nil {α : Type} {B : List α} (h : B ≠ []) (d d' : α) :
    B.getLastD d = B.getLastD d' := by
  cases B with
  | nil => exact absurd rfl h
  | cons b t => rw [List.getLastD_cons, List.getLastD_cons]

theorem getLastD_append_of_ne_nil {α : Type} {A B : List α} (h : B ≠ []) (d : α) :
    (A ++ B).getLastD d = B.getLastD d := by
  induction A with
  | nil => rfl
  | cons a A ih =>
    cases B with
    | nil => exact absurd rfl h
    | cons b t =>
      rw [List.cons_append, List.getLastD_cons]
      rw [getLastD_of_ne_nil (by simp) a d]
      exact ih

theorem splitBlocks_singleton : ∀ (s b : List Char), splitBlocks s = [b] → b = s := by
  intro s
  induction s using splitBlocks.induct with
  | case1 => intro b hb; simp [splitBlocks] at hb; exact hb
  | case2 c =>
    intro b hb
    simp [splitBlocks] at hb
    first
      | exact hb
      | exact hb.symm
  | case3 c1 c2 rest h ih =>
    intro b hb
    rw [splitBlocks, if_pos h] at hb
    have := splitBlocks_ne_nil rest
    simp at hb
    exact absurd hb.2 this
  | case4 c1 c2 rest h ih =>
    intro b hb
    rw [splitBlocks, if_neg h] at hb
    rcases hM : splitBlocks (c2 :: rest) with _ | ⟨x, xs⟩
    · exact absurd hM (splitBlocks_ne_nil _)
    · rw [hM] at hb
      simp [consHead] at hb
      rcases hb with ⟨hb1, hb2⟩
      have hx := ih x (by rw [hM, hb2])
      simp [← hb1, hx]

theorem splitBlocks_append : ∀ (s t : List Char),
    splitBlocks (s ++ t) =
      (splitBlocks s).dropLast ++ splitBlocks ((splitBlocks s).getLastD [] ++ t) := by
  intro s
  induction s using splitBlocks.induct with
  | case1 => intro t; simp [splitBlocks]
  | case2 c => intro t; simp [splitBlocks, List.getLastD_cons]
  | case3 c1 c2 rest h ih =>
    intro t
    obtain ⟨h1, h2⟩ := h
    subst h1; subst h2
    have hL := splitBlocks_ne_nil rest
    rw [show ('\n' :: '\n' :: rest) ++ t = '\n' :: '\n' :: (rest ++ t) from rfl]
    rw [splitBlocks, if_pos ⟨rfl, rfl⟩, splitBlocks, if_pos ⟨rfl, rfl⟩]
    cases hM : splitBlocks rest with
    | nil => exact absurd hM hL
    | cons x xs =>
      rw [ih t, hM]
      simp [List.getLastD_cons]
  | case4 c1 c2 rest h ih =>
    intro t
    have hsplit : splitBlocks ((c1 :: c2 :: rest) ++ t) =
        consHead c1 (splitBlocks ((c2 :: rest) ++ t)) := by
      rw [show (c1 :: c2 :: rest) ++ t = c1 :: c2 :: (rest ++ t) from rfl]
      rw [splitBlocks, if_neg h]
      rw [show c2 :: (rest ++ t) = (c2 :: rest) ++ t from rfl]
    rw [hsplit, ih t]
    rw [splitBlocks, if_neg h]
    cases hM : splitBlocks (c2 :: rest) with
    | nil => exact absurd hM (splitBlocks_ne_nil _)
    | cons b M =>
      cases M with
      | nil =>
        have hb := splitBlocks_singleton (c2 :: rest) b hM
        subst hb
        simp only [consHead, List.dropLast_single, List.nil_append,
          List.getLastD_cons, List.getLastD_nil]
        exact hsplit.symm
      | cons b2 M2 =>
        simp [consHead, List.getLastD_cons]

theorem splitBlocks_getLastD_free : ∀ (s : List Char),
    splitBlocks ((splitBlocks s).getLastD []) = [(splitBlocks s).getLastD []] := by
  intro s
  induction s using splitBlocks.induct with
  | case1 => simp [splitBlocks]
  | case2 c => simp [splitBlocks, List.getLastD_cons]
  | case3 c1 c2 rest h ih =>
    rw [splitBlocks, if_pos h]
    cases hM : splitBlocks rest with
    | nil => exact absurd hM (splitBlocks_ne_nil _)
    | cons x xs =>
      rw [hM] at ih
      simpa [List.getLastD_cons] using ih
  | case4 c1 c2 rest h ih =>
    rw [splitBlocks, if_neg h]
    cases hM : splitBlocks (c2 :: rest) with
    | nil => exact absurd hM (splitBlocks_ne_nil _)
    | cons b M =>
      cases M with
      | nil =>
        have hb := splitBlocks_singleton (c2 :: rest) b hM
        subst hb
        simp only [consHead, List.getLastD_cons, List.getLastD_nil]
        rw [splitBlocks, if_neg h, hM]
        simp [consHead]
      | cons b2 M2 =>
        rw [hM] at ih
        simp only [consHead, List.getLastD_cons] at ih ⊢
        exact ih

theorem runDecoder_go (chunks : List String) :
    ∀ (emitted : List (List Char)) (buf : List Char),
    splitBlocks buf = [buf] →
    chunks.foldl feedChunk (emitted, buf) =
      (emitted ++ (splitBlocks (buf ++ (chunks.map String.data).flatten)).dropLast,
       (splitBlocks (buf ++ (chunks.map String.data).flatten)).getLastD []) := by
  induction chunks with
  | nil =>
    intro emitted buf h
    simp [h]
  | cons c cs ih =>
    intro emitted buf h
    rw [List.foldl_cons]
    show cs.foldl feedChunk
        (emitted ++ (splitBlocks (buf ++ c.data)).dropLast,
         (splitBlocks (buf ++ c.data)).getLastD []) = _
    rw [ih _ _ (splitBlocks_getLastD_free (buf ++ c.data))]
    rw [List.map_cons, List.flatten_cons]
    rw [show buf ++ (c.data ++ (cs.map String.data).flatten) =
        (buf ++ c.data) ++ (cs.map String.data).flatten from (List.append_assoc _ _ _).symm]
    rw [splitBlocks_append (buf ++ c.data) ((cs.map String.data).flatten)]
    have hne := splitBlocks_ne_nil
      ((splitBlocks (buf ++ c.data)).getLastD [] ++ (cs.map String.data).flatten)
    rw [List.dropLast_append_of_ne_nil _ hne, getLastD_append_of_ne_nil hne]
    rw [List.append_assoc]

/-- C2: for every sequence of chunks, the Frame Decoder's emitted blocks
and residual buffer are exactly the leading pieces and last piece of the
`"\n\n"`-split of the chunks' concatenation.  The right-hand side depends
only on the concatenation, so the emitted blocks are invariant under how
the bytes are split across chunks — covering a separator split across two
chunks, zero-length chunks, and a stream ending exactly on a separator
(where the last split piece, hence the buffer, is empty rather than a
trailing empty block being emitted). -/
theorem frameDecoder_chunk_boundary_invariance (chunks : List String) :
    runDecoder chunks =
      ((splitBlocks ((chunks.map String.data).flatten)).dropLast,
       (splitBlocks ((chunks.map String.data).flatten)).getLastD []) := by
  have h := runDecoder_go chunks [] [] (by simp [splitBlocks])
  simpa [runDecoder] using h

/-! ## Event Parser lemmas -/

theorem event_data_prefix_exclusive (l : List Char) :
    (("event: ".data).isPrefixOf l) = true → (("data: ".data).isPrefixOf l) = false := by
  have he : ("event: ".data) = 'e' :: "vent: ".data := rfl
  have hd : ("data: ".data) = 'd' :: "ata: ".data := rfl
  cases l with
  | nil => intro h; rw [he] at h; simp [List.isPrefixOf] at h
  | cons c cs =>
    intro h
    rw [he] at h
    rw [hd]
    simp only [List.isPrefixOf, Bool.and_eq_true, beq_iff_eq] at h
    obtain ⟨h1, -⟩ := h
    simp only [List.isPrefixOf, ← h1]
    simp

theorem parseBlockLines_go (lines : List (List Char)) :
    ∀ (e0 d0 : List Char),
    lines.foldl scanEventDataLine (e0, d0) =
      (((lines.reverse.find? fun l => ("event: ".data).isPrefixOf l).map
          fun l => trimChars (l.drop 7)).getD e0,
       ((lines.reverse.find? fun l => ("data: ".data).isPrefixOf l).map
          fun l => l.drop 6).getD d0) := by
  induction lines with
  | nil => intro e0 d0; simp
  | cons l ls ih =>
    intro e0 d0
    by_cases hev : (("event: ".data).isPrefixOf l) = true
    · have hda := event_data_prefix_exclusive l hev
      rw [List.foldl_cons,
        show scanEventDataLine (e0, d0) l = (trimChars (l.drop 7), d0) from by
          simp [scanEventDataLine, hev]]
      rw [ih]
      rw [List.reverse_cons, List.find?_append, List.find?_append]
      rw [show ([l].find? fun l => ("event: ".data).isPrefixOf l) = some l from by
        simp [List.find?, hev]]
      rw [show ([l].find? fun l => ("data: ".data).isPrefixOf l) = none from by
        simp [List.find?, hda]]
      cases hfe : ls.reverse.find? (fun l => ("event: ".data).isPrefixOf l) <;>
        simp [Option.or_none]
    · by_cases hda : (("data: ".data).isPrefixOf l) = true
      · rw [List.foldl_cons,
          show scanEventDataLine (e0, d0) l = (e0, l.drop 6) from by
            simp [scanEventDataLine, hev, hda]]
        rw [ih]
        rw [List.reverse_cons, List.find?_append, List.find?_append]
        rw [show ([l].find? fun l => ("event: ".data).isPrefixOf l) = none from by
          simp [List.find?, hev]]
        rw [show ([l].find? fun l => ("data: ".data).isPrefixOf l) = some l from by
          simp [List.find?, hda]]
        cases hfd : ls.reverse.find? (fun l => ("data: ".data).isPrefixOf l) <;>
          simp [Option.or_none]
      · rw [List.foldl_cons,
          show scanEventDataLine (e0, d0) l = (e0, d0) from by
            simp [scanEventDataLine, hev, hda]]
        rw [ih]
        rw [List.reverse_cons, List.find?_append, List.find?_append]
        rw [show ([l].find? fun l => ("event: ".data).isPrefixOf l) = none from by
          simp [List.find?, hev]]
        rw [show ([l].find? fun l => ("data: ".data).isPrefixOf l) = none from by
          simp [List.find?, hda]]
        simp [Option.or_none]

/-- C4 counterexample: on the block `event: token\nevent: status\ndata: 1`
the line scan of the code yields the event type of the *last* `event: `
line (`status`), not the first (`token`) as the claim's first-match policy
would. -/
theorem eventParser_not_first_match :
    parseBlockLines duplicateEventLines ≠ firstMatchPolicy duplicateEventLines := by
  decide

/-- C4 (amended): for every event block, the Event Parser honors the
*last* matching `event: ` line and the *last* matching `data: ` line —
each later matching line overwrites the earlier assignment. -/
theorem eventParser_honors_last_match (lines : List (List Char)) :
    parseBlockLines lines = lastMatchPolicy lines := by
  unfold parseBlockLines lastMatchPolicy
  exact parseBlockLines_go lines [] []

/-! ## Frame lemmas: the stream loop never touches the error channel,
the toast channel, or the lifecycle flags -/

theorem applyEvent_frame (optimisticId : String) (s : ClientState)
    (eventType : List Char) (data : ParsedData) :
    (applyEvent optimisticId s eventType data).toasts = s.toasts ∧
    (applyEvent optimisticId s eventType data).sendMessageError = s.sendMessageError ∧
    (applyEvent optimisticId s eventType data).isStreaming = s.isStreaming ∧
    (applyEvent optimisticId s eventType data).isMessageSending = s.isMessageSending ∧
    (applyEvent optimisticId s eventType data).hasAbortController = s.hasAbortController := by
  unfold applyEvent warnState
  repeat' split
  all_goals exact ⟨rfl, rfl, rfl, rfl, rfl⟩

theorem processBlock_frame (parse : List Char → Option ParsedData)
    (optimisticId : String) (s : ClientState) (block : List Char) :
    (processBlock parse optimisticId s block).toasts = s.toasts ∧
    (processBlock parse optimisticId s block).sendMessageError = s.sendMessageError ∧
    (processBlock parse optimisticId s block).isStreaming = s.isStreaming ∧
    (processBlock parse optimisticId s block).isMessageSending = s.isMessageSending ∧
    (processBlock parse optimisticId s block).hasAbortController = s.hasAbortController := by
  unfold processBlock dispatchEvent warnState
  repeat' split
  all_goals first
    | exact ⟨rfl, rfl, rfl, rfl, rfl⟩
    | apply applyEvent_frame

theorem processBlocks_frame (parse : List Char → Option ParsedData)
    (optimisticId : String) (blocks : List (List Char)) :
    ∀ (s : ClientState),
    ((blocks.foldl (processBlock parse optimisticId) s).toasts = s.toasts ∧
     (blocks.foldl (processBlock parse optimisticId) s).sendMessageError = s.sendMessageError ∧
     (blocks.foldl (processBlock parse optimisticId) s).isStreaming = s.isStreaming ∧
     (blocks.foldl (processBlock parse optimisticId) s).isMessageSending = s.isMessageSending ∧
     (blocks.foldl (processBlock parse optimisticId) s).hasAbortController = s.hasAbortController) := by
  induction blocks with
  | nil => intro s; exact ⟨rfl, rfl, rfl, rfl, rfl⟩
  | cons b bs ih =>
    intro s
    rw [List.foldl_cons]
    obtain ⟨h1, h2, h3, h4, h5⟩ := processBlock_frame parse optimisticId s b
    obtain ⟨g1, g2, g3, g4, g5⟩ := ih (processBlock parse optimisticId s b)
    exact ⟨g1.trans h1, g2.trans h2, g3.trans h3, g4.trans h4, g5.trans h5⟩

theorem runStreamLoop_frame (parse : List Char → Option ParsedData)
    (optimisticId : String) (chunks : List String) :
    ∀ (s : ClientState) (buf : List Char),
    (((chunks.foldl (streamStep parse optimisticId) (s, buf)).1).toasts = s.toasts ∧
     ((chunks.foldl (streamStep parse optimisticId) (s, buf)).1).sendMessageError = s.sendMessageError ∧
     ((chunks.foldl (streamStep parse optimisticId) (s, buf)).1).isStreaming = s.isStreaming ∧
     ((chunks.foldl (streamStep parse optimisticId) (s, buf)).1).isMessageSending = s.isMessageSending ∧
     ((chunks.foldl (streamStep parse optimisticId) (s, buf)).1).hasAbortController = s.hasAbortController) := by
  induction chunks with
  | nil => intro s buf; exact ⟨rfl, rfl, rfl, rfl, rfl⟩
  | cons c cs ih =>
    intro s buf
    rw [List.foldl_cons]
    show ((cs.foldl (streamStep parse optimisticId)
      (((splitBlocks (buf ++ c.data)).dropLast).foldl (processBlock parse optimisticId) s,
       (splitBlocks (buf ++ c.data)).getLastD [])).1).toasts = s.toasts ∧ _
    obtain ⟨h1, h2, h3, h4, h5⟩ := processBlocks_frame parse optimisticId
      ((splitBlocks (buf ++ c.data)).dropLast) s
    obtain ⟨g1, g2, g3, g4, g5⟩ := ih
      (((splitBlocks (buf ++ c.data)).dropLast).foldl (processBlock parse optimisticId) s)
      ((splitBlocks (buf ++ c.data)).getLastD [])
    exact ⟨g1.trans h1, g2.trans h2, g3.trans h3, g4.trans h4, g5.trans h5⟩

/-- Unfolding `handleSendMessage` when the precondition holds. -/
theorem handleSendMessage_some (uid content : String) (ts : Nat) (nowIso : String)
    (parse : List Char → Option ParsedData) (resp : FetchResponse)
    (s : ClientState) (chat : ChatWithMessages)
    (hc : s.currentChatData = some chat) :
    handleSendMessage (some uid) content ts nowIso parse resp s =
      sendCore uid content ts nowIso parse resp s chat := by
  unfold handleSendMessage
  rw [hc]

/-! ## Conversation Reconciler lemmas -/

theorem filter_idem {α : Type} (p : α → Bool) (l : List α) :
    (l.filter p).filter p = l.filter p := by
  rw [List.filter_filter]
  simp

theorem isPrefixOf_append_self {α : Type} [BEq α] [LawfulBEq α] (l t : List α) :
    l.isPrefixOf (l ++ t) = true := by
  induction l with
  | nil => simp [List.isPrefixOf]
  | cons a as ih => simp [List.isPrefixOf, ih]

/-- C7: after `appendOptimistic m` (for an optimistic, `temp-`-prefixed id)
followed by the code's rollback, the list no longer contains `m`, and a
second rollback is a no-op leaving the list unchanged. -/
theorem rollback_removes_and_idempotent (l : List Message) (m : Message)
    (h : strStartsWith m.id "temp-" = true) :
    m ∉ rollback (appendOptimistic l m) ∧
    rollback (rollback (appendOptimistic l m)) = rollback (appendOptimistic l m) := by
  constructor
  · intro hmem
    unfold rollback appendOptimistic at hmem
    rw [List.mem_filter] at hmem
    rw [h] at hmem
    simp at hmem
  · exact filter_idem _ _

/-- Witness for C7 at a concrete conversation. -/
theorem rollback_removes_and_idempotent_witness :
    strStartsWith cxStale.id "temp-" = true ∧
    (cxStale ∉ rollback (appendOptimistic [cxOld] cxStale) ∧
     rollback (rollback (appendOptimistic [cxOld] cxStale)) =
       rollback (appendOptimistic [cxOld] cxStale)) :=
  ⟨by decide, rollback_removes_and_idempotent [cxOld] cxStale (by decide)⟩

/-- C3 counterexample: repeating `finalize` with the same arguments once
the optimistic id is gone is *not* a no-op — it appends the persisted pair
a second time, so the repeated application differs from the single one. -/
theorem finalize_not_idempotent_cx :
    finalize cxStale.id cxUser cxAi
        (finalize cxStale.id cxUser cxAi (appendOptimistic [] cxStale)) ≠
      finalize cxStale.id cxUser cxAi (appendOptimistic [] cxStale) := by
  decide

/-- C3 (amended): after `appendOptimistic m` followed by
`finalize (u, a)`, the list no longer contains `m` and ends with `u`
immediately followed by `a`; but a repeated `finalize` with the same
arguments is not a no-op: it filters the (absent) id again and appends `u`
and `a` a second time, ending with `u, a, u, a`. -/
theorem finalize_removes_and_appends (l : List Message) (m u a : Message)
    (hu : m.id ≠ u.id) (ha : m.id ≠ a.id) :
    m ∉ finalize m.id u a (appendOptimistic l m) ∧
    finalize m.id u a (appendOptimistic l m) =
      l.filter (fun x => x.id != m.id) ++ [u, a] ∧
    finalize m.id u a (finalize m.id u a (appendOptimistic l m)) =
      l.filter (fun x => x.id != m.id) ++ [u, a, u, a] := by
  have h2 : finalize m.id u a (appendOptimistic l m) =
      l.filter (fun x => x.id != m.id) ++ [u, a] := by
    unfold finalize appendOptimistic
    rw [List.filter_append]
    simp
  have hfu : (u.id != m.id) = true := by
    simp [bne_iff_ne]
    exact Ne.symm hu
  have hfa : (a.id != m.id) = true := by
    simp [bne_iff_ne]
    exact Ne.symm ha
  refine ⟨?_, h2, ?_⟩
  · rw [h2]
    intro hmem
    rw [List.mem_append] at hmem
    rcases hmem with hmem | hmem
    · rw [List.mem_filter] at hmem
      simp at hmem
    · simp at hmem
      rcases hmem with rfl | rfl
      · exact hu rfl
      · exact ha rfl
  · rw [h2]
    unfold finalize
    rw [List.filter_append, filter_idem]
    rw [show List.filter (fun x => x.id != m.id) [u, a] = [u, a] from by
      simp [List.filter_cons, hfu, hfa]]
    simp

/-- Witness for C3's amended statement at a concrete conversation. -/
theorem finalize_removes_and_appends_witness :
    cxStale.id ≠ cxUser.id ∧ cxStale.id ≠ cxAi.id ∧
    (cxStale ∉ finalize cxStale.id cxUser cxAi (appendOptimistic [cxOld] cxStale) ∧
     finalize cxStale.id cxUser cxAi (appendOptimistic [cxOld] cxStale) =
       [cxOld].filter (fun x => x.id != cxStale.id) ++ [cxUser, cxAi] ∧
     finalize cxStale.id cxUser cxAi
         (finalize cxStale.id cxUser cxAi (appendOptimistic [cxOld] cxStale)) =
       [cxOld].filter (fun x => x.id != cxStale.id) ++ [cxUser, cxAi, cxUser, cxAi]) :=
  ⟨by decide, by decide,
    finalize_removes_and_appends [cxOld] cxStale cxUser cxAi (by decide) (by decide)⟩

/-! ## Precondition, decode-failure and done-event claims -/

/-- C8: when the target conversation is missing or the user identity is
absent, the send fails immediately with the precondition error
`Chat or user not found` and changes nothing else — and the result does
not depend on the transport at all (no HTTP request is issued, no
optimistic message is appended, no streaming state is entered). -/
theorem send_precondition_failure (userId : Option String) (content : String)
    (ts : Nat) (nowIso : String) (parse : List Char → Option ParsedData)
    (resp resp' : FetchResponse) (s : ClientState)
    (h : s.currentChatData = none ∨ userId = none) :
    handleSendMessage userId content ts nowIso parse resp s =
      { s with sendMessageError := some "Chat or user not found" } ∧
    handleSendMessage userId content ts nowIso parse resp s =
      handleSendMessage userId content ts nowIso parse resp' s := by
  have key : ∀ (r : FetchResponse),
      handleSendMessage userId content ts nowIso parse r s =
        { s with sendMessageError := some "Chat or user not found" } := by
    intro r
    rcases h with h | h
    · cases userId <;> simp [handleSendMessage, h]
    · subst h
      cases hcc : s.currentChatData <;> simp [handleSendMessage, hcc]
  exact ⟨key resp, (key resp).trans (key resp').symm⟩

/-- Witness for C8: a send with no loaded conversation. -/
theorem send_precondition_failure_witness :
    (noChatState.currentChatData = none ∨ (some "user1" : Option String) = none) ∧
    (handleSendMessage (some "user1") "Hello" 5 "now" alwaysInvalidParse
        (.httpError 500) noChatState =
      { noChatState with sendMessageError := some "Chat or user not found" } ∧
     handleSendMessage (some "user1") "Hello" 5 "now" alwaysInvalidParse
        (.httpError 500) noChatState =
       handleSendMessage (some "user1") "Hello" 5 "now" alwaysInvalidParse
        (.stream [] .normal) noChatState) :=
  ⟨Or.inl rfl,
    send_precondition_failure (some "user1") "Hello" 5 "now" alwaysInvalidParse
      (.httpError 500) (.stream [] .normal) noChatState (Or.inl rfl)⟩

/-- C5: a block whose `data:` payload fails to JSON-decode produces no
event and does not throw — the client state is unchanged except for the
appended `console.warn` record (in particular the conversation and the
accumulated streaming text are untouched), and processing of the
subsequent blocks continues from that state. -/
theorem invalid_json_block_recovered (parse : List Char → Option ParsedData)
    (optimisticId : String) (s : ClientState) (block : List Char)
    (rest : List (List Char))
    (hbl : trimChars block ≠ [])
    (hev : (parseBlockLines (splitOnNl block)).1 ≠ [])
    (hds : (parseBlockLines (splitOnNl block)).2 ≠ [])
    (hp : parse (parseBlockLines (splitOnNl block)).2 = none) :
    processBlock parse optimisticId s block =
      { s with warnings := s.warnings ++ ["Failed to parse SSE message"] } ∧
    (processBlock parse optimisticId s block).currentChatData = s.currentChatData ∧
    (processBlock parse optimisticId s block).streamingMessage = s.streamingMessage ∧
    (block :: rest).foldl (processBlock parse optimisticId) s =
      rest.foldl (processBlock parse optimisticId)
        { s with warnings := s.warnings ++ ["Failed to parse SSE message"] } := by
  have h1 : processBlock parse optimisticId s block =
      { s with warnings := s.warnings ++ ["Failed to parse SSE message"] } := by
    unfold processBlock
    rw [if_neg hbl]
    unfold dispatchEvent
    rw [if_neg (not_or.mpr ⟨hev, hds⟩)]
    rw [hp]
    rfl
  refine ⟨h1, by rw [h1], by rw [h1], ?_⟩
  rw [List.foldl_cons, h1]

/-- Witness for C5: a `token` block whose payload is not valid JSON. -/
theorem invalid_json_block_recovered_witness :
    trimChars ("event: token\ndata: nope".data) ≠ [] ∧
    (parseBlockLines (splitOnNl ("event: token\ndata: nope".data))).1 ≠ [] ∧
    (parseBlockLines (splitOnNl ("event: token\ndata: nope".data))).2 ≠ [] ∧
    alwaysInvalidParse (parseBlockLines (splitOnNl ("event: token\ndata: nope".data))).2 = none ∧
    (processBlock alwaysInvalidParse "temp-5" demoState ("event: token\ndata: nope".data) =
      { demoState with warnings := demoState.warnings ++ ["Failed to parse SSE message"] } ∧
     (processBlock alwaysInvalidParse "temp-5" demoState ("event: token\ndata: nope".data)).currentChatData =
       demoState.currentChatData ∧
     (processBlock alwaysInvalidParse "temp-5" demoState ("event: token\ndata: nope".data)).streamingMessage =
       demoState.streamingMessage ∧
     (("event: token\ndata: nope".data) :: []).foldl (processBlock alwaysInvalidParse "temp-5") demoState =
       [].foldl (processBlock alwaysInvalidParse "temp-5")
         { demoState with warnings := demoState.warnings ++ ["Failed to parse SSE message"] }) :=
  ⟨by decide, by decide, by decide, rfl,
    invalid_json_block_recovered alwaysInvalidParse "temp-5" demoState
      ("event: token\ndata: nope".data) [] (by decide) (by decide) (by decide) rfl⟩

/-- C9: a `done` event whose decoded payload lacks the `userMessage` field
or the `aiMessage` field leaves the client state — in particular the
conversation message list — completely unchanged: the optimistic message
is not removed and nothing is appended. -/
theorem done_missing_fields_noop (parse : List Char → Option ParsedData)
    (optimisticId : String) (s : ClientState) (block : List Char) (d : ParsedData)
    (hev : (parseBlockLines (splitOnNl block)).1 = "done".data)
    (hp : parse (parseBlockLines (splitOnNl block)).2 = some d)
    (hm : d.userMessage = none ∨ d.aiMessage = none) :
    processBlock parse optimisticId s block = s := by
  unfold processBlock
  split
  · rfl
  · unfold dispatchEvent
    split
    · rfl
    · rw [hp]
      show applyEvent optimisticId s (parseBlockLines (splitOnNl block)).1 d = s
      unfold applyEvent
      rw [hev]
      rw [if_neg (by decide), if_neg (by decide), if_neg (by decide), if_pos rfl]
      cases hcc : s.currentChatData with
      | none => rfl
      | some chat =>
        cases hai : d.aiMessage <;> cases hus : d.userMessage <;>
          first
            | rfl
            | (rcases hm with hm | hm <;> simp_all)

/-- Witness for C9: a `done` block whose payload decodes to an object with
neither message field. -/
theorem done_missing_fields_noop_witness :
    (parseBlockLines (splitOnNl ("event: done\ndata: x".data))).1 = "done".data ∧
    emptyFieldsParse (parseBlockLines (splitOnNl ("event: done\ndata: x".data))).2 =
      some emptyData ∧
    (emptyData.userMessage = none ∨ emptyData.aiMessage = none) ∧
    processBlock emptyFieldsParse "temp-5" demoState ("event: done\ndata: x".data) =
      demoState :=
  ⟨by decide, rfl, Or.inl rfl,
    done_missing_fields_noop emptyFieldsParse "temp-5" demoState
      ("event: done\ndata: x".data) emptyData (by decide) rfl (Or.inl rfl)⟩

/-! ## Session-level claims -/

theorem strStartsWith_temp_append (x : String) :
    strStartsWith ("temp-" ++ x) "temp-" = true := by
  unfold strStartsWith
  obtain ⟨d⟩ := x
  rw [show (("temp-" ++ String.mk d : String)).data = "temp-".data ++ d from rfl]
  exact isPrefixOf_append_self _ _

theorem rollback_append_optimistic (msgs : List Message) (ts : Nat)
    (chatId content uid nowIso : String) :
    rollback (appendOptimistic msgs (mkOptimistic ts chatId content uid nowIso)) =
      rollback msgs := by
  unfold rollback appendOptimistic
  rw [List.filter_append]
  rw [show List.filter (fun msg => !(strStartsWith msg.id "temp-"))
      [mkOptimistic ts chatId content uid nowIso] = [] from by
    simp [List.filter_cons, mkOptimistic, strStartsWith_temp_append]]
  simp

theorem applyCatch_throw_currentChatData (st : ClientState) (msg : String)
    (chat2 : ChatWithMessages) (h : st.currentChatData = some chat2) :
    (applyCatch st (some (msg, false))).currentChatData =
      some { chat2 with messages := rollback chat2.messages } := by
  unfold applyCatch
  simp [h]

theorem applyCatch_throw_all_nontemp (st : ClientState) (msg : String) :
    Option.all (fun c => c.messages.all fun m => !(strStartsWith m.id "temp-"))
      (applyCatch st (some (msg, false))).currentChatData = true := by
  unfold applyCatch
  cases hcc : st.currentChatData with
  | none => simp [hcc]
  | some chat =>
    simp only [hcc]
    rw [Option.all]
    unfold rollback
    rw [List.all_eq_true]
    intro m hm
    exact (List.mem_filter.mp hm).2

/-- C6: an abort firing mid-stream (the read rejecting with `AbortError`)
produces no user-visible error — the error state stays cleared and no
toast is raised — and the session always ends with its resources released:
streaming off, sending off, streaming text and status reset to empty, and
the abort controller handle cleared. -/
theorem cancel_midstream_silent (uid content : String) (ts : Nat) (nowIso : String)
    (parse : List Char → Option ParsedData) (chunks : List String)
    (s : ClientState) (chat : ChatWithMessages)
    (hc : s.currentChatData = some chat) :
    (handleSendMessage (some uid) content ts nowIso parse
        (.stream chunks .abortError) s).sendMessageError = none ∧
    (handleSendMessage (some uid) content ts nowIso parse
        (.stream chunks .abortError) s).toasts = s.toasts ∧
    (handleSendMessage (some uid) content ts nowIso parse
        (.stream chunks .abortError) s).isStreaming = false ∧
    (handleSendMessage (some uid) content ts nowIso parse
        (.stream chunks .abortError) s).isMessageSending = false ∧
    (handleSendMessage (some uid) content ts nowIso parse
        (.stream chunks .abortError) s).streamingMessage = "" ∧
    (handleSendMessage (some uid) content ts nowIso parse
        (.stream chunks .abortError) s).agentStatus = some "" ∧
    (handleSendMessage (some uid) content ts nowIso parse
        (.stream chunks .abortError) s).hasAbortController = false := by
  rw [handleSendMessage_some uid content ts nowIso parse _ s chat hc]
  obtain ⟨f1, f2, f3, f4, f5⟩ := runStreamLoop_frame parse
    (mkOptimistic ts chat.id content uid nowIso).id chunks
    (initStreamState s chat (mkOptimistic ts chat.id content uid nowIso)) []
  refine ⟨?_, ?_, rfl, rfl, rfl, rfl, rfl⟩
  · show ((chunks.foldl (streamStep parse (mkOptimistic ts chat.id content uid nowIso).id)
      (initStreamState s chat (mkOptimistic ts chat.id content uid nowIso), [])).1).sendMessageError = none
    rw [f2]
    rfl
  · show ((chunks.foldl (streamStep parse (mkOptimistic ts chat.id content uid nowIso).id)
      (initStreamState s chat (mkOptimistic ts chat.id content uid nowIso), [])).1).toasts = s.toasts
    rw [f1]
    rfl

/-- Witness for C6: aborting after one token chunk of the demo stream. -/
theorem cancel_midstream_silent_witness :
    demoState.currentChatData = some demoChat ∧
    ((handleSendMessage (some "user1") "Hello" 5 "now" emptyFieldsParse
        (.stream ["event: token\ndata: x\n\n"] .abortError) demoState).sendMessageError = none ∧
     (handleSendMessage (some "user1") "Hello" 5 "now" emptyFieldsParse
        (.stream ["event: token\ndata: x\n\n"] .abortError) demoState).toasts = demoState.toasts ∧
     (handleSendMessage (some "user1") "Hello" 5 "now" emptyFieldsParse
        (.stream ["event: token\ndata: x\n\n"] .abortError) demoState).isStreaming = false ∧
     (handleSendMessage (some "user1") "Hello" 5 "now" emptyFieldsParse
        (.stream ["event: token\ndata: x\n\n"] .abortError) demoState).isMessageSending = false ∧
     (handleSendMessage (some "user1") "Hello" 5 "now" emptyFieldsParse
        (.stream ["event: token\ndata: x\n\n"] .abortError) demoState).streamingMessage = "" ∧
     (handleSendMessage (some "user1") "Hello" 5 "now" emptyFieldsParse
        (.stream ["event: token\ndata: x\n\n"] .abortError) demoState).agentStatus = some "" ∧
     (handleSendMessage (some "user1") "Hello" 5 "now" emptyFieldsParse
        (.stream ["event: token\ndata: x\n\n"] .abortError) demoState).hasAbortController = false) :=
  ⟨rfl, cancel_midstream_silent "user1" "Hello" 5 "now" emptyFieldsParse
    ["event: token\ndata: x\n\n"] demoState demoChat rfl⟩

/-- C10: on the failure paths of a send — non-success HTTP status, missing
response body, or a non-abort transport error mid-stream — the rollback
filters the conversation by the `temp-` id prefix: every message whose id
starts with `temp-` is removed, the pre-existing ones included, not only
the optimistic message of the current send. -/
theorem failure_rollback_filters_all_temp (uid content : String) (ts status : Nat)
    (nowIso emsg : String) (parse : List Char → Option ParsedData)
    (chunks : List String) (s : ClientState) (chat : ChatWithMessages)
    (hc : s.currentChatData = some chat) :
    (handleSendMessage (some uid) content ts nowIso parse
        (.httpError status) s).currentChatData =
      some { chat with messages := rollback chat.messages } ∧
    (handleSendMessage (some uid) content ts nowIso parse
        .noBody s).currentChatData =
      some { chat with messages := rollback chat.messages } ∧
    Option.all (fun c => c.messages.all fun m => !(strStartsWith m.id "temp-"))
      (handleSendMessage (some uid) content ts nowIso parse
        (.stream chunks (.otherError emsg)) s).currentChatData = true := by
  have happly : ∀ (msgE : String),
      (applyFinally (applyCatch
          (initStreamState s chat (mkOptimistic ts chat.id content uid nowIso))
          (some (msgE, false)))).currentChatData =
        some { chat with messages := rollback chat.messages } := by
    intro msgE
    show (applyCatch (initStreamState s chat (mkOptimistic ts chat.id content uid nowIso))
        (some (msgE, false))).currentChatData = _
    rw [applyCatch_throw_currentChatData
      (initStreamState s chat (mkOptimistic ts chat.id content uid nowIso)) msgE
      { chat with messages := appendOptimistic chat.messages (mkOptimistic ts chat.id content uid nowIso) }
      rfl]
    simp only [rollback_append_optimistic]
  refine ⟨?_, ?_, ?_⟩
  · rw [handleSendMessage_some uid content ts nowIso parse _ s chat hc]
    exact happly ("HTTP error! status: " ++ toString status)
  · rw [handleSendMessage_some uid content ts nowIso parse _ s chat hc]
    exact happly "No response body"
  · rw [handleSendMessage_some uid content ts nowIso parse _ s chat hc]
    show Option.all _
      (applyCatch (runStreamLoop parse (mkOptimistic ts chat.id content uid nowIso).id
          (initStreamState s chat (mkOptimistic ts chat.id content uid nowIso)) chunks)
        (some (emsg, false))).currentChatData = true
    exact applyCatch_throw_all_nontemp _ emsg

/-- Witness for C10: the demo conversation holds a stale `temp-1` message
besides the optimistic `temp-5`; both are removed on every failure path. -/
theorem failure_rollback_filters_all_temp_witness :
    demoState.currentChatData = some demoChat ∧
    ((handleSendMessage (some "user1") "Hello" 5 "now" alwaysInvalidParse
        (.httpError 500) demoState).currentChatData =
      some { demoChat with messages := rollback demoChat.messages } ∧
     (handleSendMessage (some "user1") "Hello" 5 "now" alwaysInvalidParse
        .noBody demoState).currentChatData =
      some { demoChat with messages := rollback demoChat.messages } ∧
     Option.all (fun c => c.messages.all fun m => !(strStartsWith m.id "temp-"))
       (handleSendMessage (some "user1") "Hello" 5 "now" alwaysInvalidParse
         (.stream ["event: token\ndata: x\n\n"] (.otherError "network error"))
         demoState).currentChatData = true) :=
  ⟨rfl, failure_rollback_filters_all_temp "user1" "Hello" 5 500 "now" "network error"
    alwaysInvalidParse ["event: token\ndata: x\n\n"] demoState demoChat rfl⟩

/-- C1 (code-bug evidence): in the paragraph-8 scenario the stream yields
`error:` with message `rate limited` before `done`, yet the run ends with
no surfaced error (`sendMessageError` is `none`), no toast, the optimistic
message still present in the conversation, and only a console warning —
because the `throw new Error(data.message)` at line 236 is lexically
inside the `try` at line 228 and is therefore caught by the JSON-parse
`catch` at line 255 instead of aborting the loop and rolling back. -/
theorem error_event_swallowed_run :
    rateLimitedRun.sendMessageError = none ∧
    rateLimitedRun.toasts = [] ∧
    rateLimitedRun.currentChatData =
      some { id := "c1"
             messages := [cxOld, cxStale, mkOptimistic 5 "c1" "Hello" "user1" "now"] } ∧
    rateLimitedRun.warnings = ["Failed to parse SSE message"] := by
  decide

end StreamChat

